import Mathlib

/-!
Verification of the OmniTech analysis-request orchestrator (src/src/App.jsx).

The embedding translates the orchestrator logic of the App component into
pure Lean functions.  React state hooks become fields of an explicit
`AppState` record; the mutable refs of the rate guard (`inFlightRef`,
`lastCallAtRef`, `callTimestampsRef`) become the fields `inFlight`,
`lastCallAt` and `recentCalls`.  External effects (the network call to the
inference service, frame capture, voice output, Firestore persistence) are
recorded as an `Event` list returned alongside the new state, and the
nondeterministic outside world (API key presence, captured frame, the
transport-level outcome of the fetch) is an explicit `Env` argument.
Timestamps are integers (JavaScript `Date.now()` values).
-/

namespace OmniTech

/-- `DEMO_MODE` constant of App.jsx (`const DEMO_MODE = true`). -/
def DEMO_MODE : Bool := true

/-- `COOLDOWN_MS` constant of App.jsx (`const COOLDOWN_MS = 2500`). -/
def COOLDOWN_MS : Int := 2500

/-- `MAX_CALLS_PER_MIN` constant of App.jsx (`const MAX_CALLS_PER_MIN = 8`). -/
def MAX_CALLS_PER_MIN : Nat := 8

/-- The JSON object shape produced by the inference service and by the demo
fallback pool.  Every field is optional because a parsed JSON response may
omit any of them. -/
structure AnalysisResult where
  status : Option String
  headline : Option String
  reasoning : Option String
  action_required : Option String
  repair_steps : Option (List String)
deriving DecidableEq

/-- JavaScript `x || d` for an optional string: `undefined`, `null` and the
empty string are falsy and select the default. -/
def jsOrString : Option String → String → String
  | none, d => d
  | some "", d => d
  | some s, _ => s

/-- One element of the `logs` state array: `{ source, message, time }`. -/
structure LogEntry where
  source : String
  message : String
  time : String
deriving DecidableEq

/-- The `toast` state: `{ message, type }`. -/
structure Toast where
  message : String
  ty : String
deriving DecidableEq

/-- The orchestrator-relevant React state of the App component together with
the three anti-spam refs. -/
structure AppState where
  analyzing : Bool
  inFlight : Bool
  lastCallAt : Int
  recentCalls : List Int
  systemState : String
  logs : List LogEntry
  currentAnalysis : Option AnalysisResult
  repairSteps : Option (List String)
  showRepairModal : Bool
  demoStep : Nat
  toast : Option Toast
  userContext : String
  generatedReport : Option String
  showReportModal : Bool
  generatingReport : Bool
deriving DecidableEq

/-- External side effects performed by the orchestrator. -/
inductive Event where
  | captureEv
  | fetchCall
  | speakEv (text : String)
  | persist (mode : String) (result : AnalysisResult)
deriving DecidableEq

/-- Structured outcome of the rate guard `canCallNow`.  The JS function
returns `{ ok, reason }`; the reason strings are rendered by
`guardReason`. -/
inductive GuardDecision where
  | ok
  | rejectedInFlight
  | rejectedCooldown (wait : Int)
  | rejectedRate
deriving DecidableEq

/-- The exact `reason` strings produced by `canCallNow` in App.jsx. -/
def guardReason : GuardDecision → String
  | GuardDecision.ok => ""
  | GuardDecision.rejectedInFlight => "Request in progress..."
  | GuardDecision.rejectedCooldown w => "Cooldown: wait " ++ toString w ++ "s"
  | GuardDecision.rejectedRate => "Rate limit: too many requests/min"

/-- `Math.ceil(a / 1000)` for an integer `a` (used on
`COOLDOWN_MS - delta`). -/
def jsCeilDiv1000 (a : Int) : Int := (a + 999) / 1000

/-- `canCallNow` from App.jsx.  Returns the decision together with the
timestamp list as left behind by the call: the function mutates
`callTimestampsRef` (pruning entries older than one minute) only once the
first two rules have passed. -/
def canCallNow (now : Int) (inFlight : Bool) (lastCallAt : Int)
    (recent : List Int) : GuardDecision × List Int :=
  if inFlight then (GuardDecision.rejectedInFlight, recent)
  else
    let delta := now - lastCallAt
    if delta < COOLDOWN_MS then
      (GuardDecision.rejectedCooldown (jsCeilDiv1000 (COOLDOWN_MS - delta)), recent)
    else
      let oneMinAgo := now - 60000
      let pruned := recent.filter (fun t => decide (oneMinAgo < t))
      if MAX_CALLS_PER_MIN ≤ pruned.length then (GuardDecision.rejectedRate, pruned)
      else (GuardDecision.ok, pruned)

/-- Entry 0 of the `demo` pool in `getDemoResult`. -/
def demoDanger : AnalysisResult :=
  { status := some "DANGER"
    headline := some "Liquid Hazard Near Electronics"
    reasoning := some "A container of liquid is placed close to exposed electronics, increasing spill and short-circuit risk."
    action_required := some "Move the liquid away and dry the area before continuing."
    repair_steps := some [] }

/-- Entry 1 of the `demo` pool in `getDemoResult`. -/
def demoUncertain : AnalysisResult :=
  { status := some "UNCERTAIN"
    headline := some "Image Quality Too Poor"
    reasoning := some "The image is too blurry/low-detail to confirm cable condition or hazards."
    action_required := some "Move closer, improve lighting, and hold still for a clear frame."
    repair_steps := some [] }

/-- Entry 2 of the `demo` pool in `getDemoResult`. -/
def demoSafe : AnalysisResult :=
  { status := some "SAFE"
    headline := some "Environment Appears Clear"
    reasoning := some "No immediate hazards are visible; workspace looks stable and dry."
    action_required := some "Proceed with diagnosis. Keep hands dry and avoid exposed contacts."
    repair_steps := some
      [ "Power off the device and unplug it (if safe).",
        "Inspect connectors for looseness or debris.",
        "Reseat the cable firmly and check for damage.",
        "Power on and re-test the system behavior.",
        "If issue persists, replace the cable/component." ] }

/-- `demo[step % demo.length]` of `getDemoResult`. -/
def demoAt (step : Nat) : AnalysisResult :=
  match step % 3 with
  | 0 => demoDanger
  | 1 => demoUncertain
  | _ => demoSafe

/-- `getDemoResult(mode, step)` from App.jsx: the deterministic rotating
fallback generator. -/
def getDemoResult (mode : String) (step : Nat) : AnalysisResult :=
  let pick := demoAt step
  if mode = "repair_guide" then
    { status := some "SAFE"
      headline := some "Repair Protocol Ready"
      reasoning := some "Safety confirmed. Providing step-by-step repair guidance."
      action_required := some "Follow steps carefully. Stop if heat/smoke appears."
      repair_steps := some
        (match pick.repair_steps with
         | some (st :: rest) => st :: rest
         | _ => demoSafe.repair_steps.getD []) }
  else if mode = "diagnosis" then
    if pick.status = some "SAFE" then
      { pick with
        headline := some "Fault Likely: Loose Connection"
        reasoning := some "Visual cues suggest an intermittent connection; reseating and inspection is recommended." }
    else pick
  else pick

/-- `addLog(source, message, type)` from App.jsx: prepends a timestamped
entry (the log is newest-first) and raises an error toast when the entry is
an error. -/
def addLog (source message ty timeStr : String) (s : AppState) : AppState :=
  let s1 := { s with logs := { source := source, message := message, time := timeStr } :: s.logs }
  if ty = "error" ∨ source = "ERROR" then
    { s1 with toast := some { message := message, ty := "error" } }
  else s1

/-- `handleAnalysisResult(result, mode, opts)` from App.jsx.  `userDb`
models `user && db` (authentication and Firestore both available); the
persistence write becomes an `Event.persist`. -/
def handleAnalysisResult (result : AnalysisResult) (mode : String)
    (skipSave : Bool) (userDb : Bool) (timeStr : String) (s : AppState) :
    AppState × List Event :=
  if mode = "repair_guide" ∧ result.repair_steps ≠ none then
    ({ s with repairSteps := result.repair_steps, showRepairModal := true }, [])
  else
    let s1 := { s with currentAnalysis := some result,
                       systemState := jsOrString result.status "UNCERTAIN" }
    let s2 := addLog "OMNITECH" (jsOrString result.reasoning "No reasoning returned.") "info" timeStr s1
    let evs := [Event.speakEv (jsOrString result.headline "Update" ++ ". " ++ jsOrString result.action_required "")] ++
      (if ¬ skipSave ∧ userDb then [Event.persist mode result] else [])
    (s2, evs)

/-- Classification of what the inference `fetch` produced, as observed by
`callOmniTech`: a thrown exception, HTTP 429, another non-ok status, a body
carrying an `error` object, a body with no candidate text, candidate text
that is not valid JSON, or a successfully parsed result. -/
inductive FetchOutcome where
  | netThrow
  | http429 (errText : String)
  | httpFail (code : Nat) (errText : String)
  | apiError (msg : Option String)
  | noText
  | corrupt (raw : String)
  | parsed (result : AnalysisResult)
deriving DecidableEq

/-- The outside world as seen by one orchestrator invocation. -/
structure Env where
  apiKeyPresent : Bool
  frame : Option String
  outcome : FetchOutcome
  userDb : Bool
deriving DecidableEq

/-- `callOmniTech(mode, manualContext)` from App.jsx, at a given current
time `now` and with the external world fixed by `env`.  `timeStr` is the
wall-clock string used for log entries. -/
def callOmniTech (mode _manualContext : String) (now : Int) (env : Env)
    (timeStr : String) (s : AppState) : AppState × List Event :=
  let g := canCallNow now s.inFlight s.lastCallAt s.recentCalls
  if g.1 = GuardDecision.ok then
    let s0 := { s with lastCallAt := now, recentCalls := g.2 ++ [now],
                       analyzing := true, inFlight := true }
    if env.apiKeyPresent = false then
      let sA := addLog "ERROR" "Missing VITE_GEMINI_API_KEY. Using demo output." "error" timeStr s0
      let demo := getDemoResult mode sA.demoStep
      let sB := { sA with demoStep := sA.demoStep + 1 }
      let hr := handleAnalysisResult demo mode true env.userDb timeStr sB
      ({ hr.1 with analyzing := false, inFlight := false }, hr.2)
    else
      match env.frame with
      | none =>
          let sA := addLog "ERROR" "Camera not ready yet. Wait 1–2 seconds after Initialize Optics." "error" timeStr s0
          ({ sA with analyzing := false, inFlight := false }, [Event.captureEv])
      | some _ =>
          match env.outcome with
          | FetchOutcome.netThrow =>
              let sA := addLog "ERROR" "Connection to OmniTech Core failed. Check network." "error" timeStr s0
              ({ sA with analyzing := false, inFlight := false }, [Event.captureEv, Event.fetchCall])
          | FetchOutcome.http429 errText =>
              let sA := addLog "ERROR" "Gemini HTTP 429 (quota/rate limit). Switching to demo output." "error" timeStr s0
              let sB := addLog "SYSTEM" "Tip: reduce clicks / disable report / or increase quota in Google billing." "info" timeStr sA
              if DEMO_MODE then
                let demo := getDemoResult mode sB.demoStep
                let sC := { sB with demoStep := sB.demoStep + 1 }
                let hr := handleAnalysisResult demo mode true env.userDb timeStr sC
                let sD := { hr.1 with toast := some { message := "Quota hit — demo fallback enabled.", ty := "success" },
                                      analyzing := false, inFlight := false }
                (sD, [Event.captureEv, Event.fetchCall] ++ hr.2)
              else
                let sC := addLog "ERROR" ("Gemini HTTP 429 details: " ++ errText.take 160) "error" timeStr sB
                ({ sC with analyzing := false, inFlight := false }, [Event.captureEv, Event.fetchCall])
          | FetchOutcome.httpFail code errText =>
              let sA := addLog "ERROR" ("Gemini HTTP " ++ toString code ++ ": " ++ errText.take 180) "error" timeStr s0
              ({ sA with analyzing := false, inFlight := false }, [Event.captureEv, Event.fetchCall])
          | FetchOutcome.apiError msg =>
              let sA := addLog "ERROR" ("Gemini error: " ++ jsOrString msg "Unknown error") "error" timeStr s0
              ({ sA with analyzing := false, inFlight := false }, [Event.captureEv, Event.fetchCall])
          | FetchOutcome.noText =>
              let sA := addLog "ERROR" "No response from AI. Try again." "error" timeStr s0
              ({ sA with analyzing := false, inFlight := false }, [Event.captureEv, Event.fetchCall])
          | FetchOutcome.corrupt _ =>
              let sA := addLog "ERROR" "AI response corrupted (bad JSON). Try again." "error" timeStr s0
              ({ sA with analyzing := false, inFlight := false }, [Event.captureEv, Event.fetchCall])
          | FetchOutcome.parsed result =>
              let hr := handleAnalysisResult result mode false env.userDb timeStr s0
              let sA := { hr.1 with userContext := "", analyzing := false, inFlight := false }
              (sA, [Event.captureEv, Event.fetchCall] ++ hr.2)
  else
    ({ s with recentCalls := g.2, toast := some { message := guardReason g.1, ty := "error" } }, [])

/-- JavaScript `String.prototype.trim()`: drop leading and trailing
whitespace (written by structural recursion over the character list so that
it is kernel-computable). -/
def jsTrim (s : String) : String :=
  String.mk (((s.data.dropWhile Char.isWhitespace).reverse.dropWhile Char.isWhitespace).reverse)

/-- `submitTextDiagnosis` from App.jsx: trims the typed context, shows a
confirmation toast, and invokes `callOmniTech("diagnosis", clean)`. -/
def submitTextDiagnosis (now : Int) (env : Env) (timeStr : String)
    (s : AppState) : AppState × List Event :=
  let clean := jsTrim s.userContext
  if clean = "" then (s, [])
  else
    let s1 := { s with toast := some { message := "Context sent.", ty := "success" } }
    let r := callOmniTech "diagnosis" clean now env timeStr s1
    ({ r.1 with userContext := "" }, r.2)

/-- `[${l.time}] ${l.source}: ${l.message}` formatting of a log line. -/
def formatLogLine (l : LogEntry) : String :=
  "[" ++ l.time ++ "] " ++ l.source ++ ": " ++ l.message

/-- Fixed lines above the log listing in the local report of
`generateFieldReport`. -/
def reportHeaderLines (nowStr : String) : List String :=
  [ "FIELD INCIDENT REPORT",
    "--------------------",
    "Generated: " ++ nowStr,
    "",
    "SESSION LOGS:" ]

/-- Fixed lines below the log listing in the local report of
`generateFieldReport`. -/
def reportFooterLines : List String :=
  [ "",
    "Summary:",
    "- OmniTech recorded safety/diagnostic events.",
    "- Review recommended actions before proceeding." ]

/-- The line list of the local (no-network) report: header, then the most
recent 30 log entries reversed into chronological order, then the fixed
summary. -/
def localReportLines (nowStr : String) (logs : List LogEntry) : List String :=
  reportHeaderLines nowStr ++ (logs.take 30).reverse.map formatLogLine ++ reportFooterLines

/-- The line list of the local report produced on a 429 during report
generation (header differs, no summary section). -/
def localFallbackReportLines (nowStr : String) (logs : List LogEntry) : List String :=
  [ "FIELD INCIDENT REPORT (LOCAL FALLBACK)",
    "-------------------------------------",
    "Generated: " ++ nowStr,
    "",
    "SESSION LOGS:" ] ++ (logs.take 30).reverse.map formatLogLine

/-- Outcome of the report-summarization fetch in `generateFieldReport`. -/
inductive ReportOutcome where
  | netThrow
  | http429
  | httpFail (code : Nat) (errText : String)
  | okText (text : Option String)
deriving DecidableEq

/-- `generateFieldReport` from App.jsx.  `nowStr` is the
`new Date().toLocaleString()` header timestamp and `timeStr` the log
timestamp.  With `DEMO_MODE = true` the network branch is unreachable; it
is embedded nonetheless. -/
def generateFieldReport (env : Env) (ro : ReportOutcome) (nowStr timeStr : String)
    (s : AppState) : AppState × List Event :=
  if s.logs.length = 0 then (s, [])
  else if env.apiKeyPresent = false ∨ DEMO_MODE then
    let doc := String.intercalate "\n" (localReportLines nowStr s.logs)
    let s1 := { s with generatedReport := some doc, showReportModal := true }
    (addLog "SYSTEM" "Local report generated (demo / no-quota mode)." "info" timeStr s1, [])
  else
    let s1 := { s with generatingReport := true }
    match ro with
    | ReportOutcome.netThrow =>
        let s2 := addLog "ERROR" "Failed to generate report." "error" timeStr s1
        ({ s2 with generatingReport := false }, [Event.fetchCall])
    | ReportOutcome.http429 =>
        let s2 := addLog "ERROR" "Report HTTP 429 (quota). Using local report instead." "error" timeStr s1
        let doc := String.intercalate "\n" (localFallbackReportLines nowStr s.logs)
        ({ s2 with generatedReport := some doc, showReportModal := true, generatingReport := false },
         [Event.fetchCall])
    | ReportOutcome.httpFail code errText =>
        let s2 := addLog "ERROR" ("Report HTTP " ++ toString code ++ ": " ++ errText.take 180) "error" timeStr s1
        ({ s2 with generatingReport := false }, [Event.fetchCall])
    | ReportOutcome.okText t =>
        let s2 := { s1 with generatedReport := some (jsOrString t "No report generated."),
                            showReportModal := true }
        let s3 := addLog "SYSTEM" "Field Report generated." "info" timeStr s2
        ({ s3 with generatingReport := false }, [Event.fetchCall])

/-- The `disabled` condition of the DIAGNOSE button in the render tree:
`!isStreamActive || analyzing || systemState === "DANGER" || systemState === "UNCERTAIN"`. -/
def diagnoseButtonDisabled (isStreamActive analyzing : Bool) (systemState : String) : Bool :=
  !isStreamActive || analyzing || systemState == "DANGER" || systemState == "UNCERTAIN"

/-- Visibility of the View Repair Steps button: rendered only when
`currentAnalysis.status === "SAFE"`. -/
def repairButtonShown (currentAnalysis : Option AnalysisResult) : Bool :=
  match currentAnalysis with
  | some r => r.status == some "SAFE"
  | none => false

/-- The `disabled` condition of the Report button:
`logs.length < 2 || generatingReport`. -/
def reportButtonDisabled (logsCount : Nat) (generatingReport : Bool) : Bool :=
  decide (logsCount < 2) || generatingReport

/-- Modelled from the spec wording of the Rate Guard contract: ceiling of
`remaining / 1000` milliseconds, i.e. the remaining wait rounded up to the
nearest whole second, written as a negated floor so it is independent of
the formula used in the code. -/
def ceilSeconds (remaining : Int) : Int := -((-remaining) / 1000)

/-- Modelled from the spec wording of the Rate Guard contract (section 4.1):
the three admission rules evaluated in order, the first failing rule
determining the rejection. -/
def specFirstFailing (now : Int) (inFlight : Bool) (lastCallAt : Int)
    (recent : List Int) : GuardDecision :=
  if inFlight then GuardDecision.rejectedInFlight
  else if now - lastCallAt < COOLDOWN_MS then
    GuardDecision.rejectedCooldown (ceilSeconds (COOLDOWN_MS - (now - lastCallAt)))
  else if MAX_CALLS_PER_MIN ≤ (recent.filter (fun x => decide (now - 60000 < x))).length then
    GuardDecision.rejectedRate
  else GuardDecision.ok

/-- The rate-guard fields on their own, for reasoning about sequences of
admission attempts. -/
structure GuardSt where
  inFlight : Bool
  lastCallAt : Int
  recent : List Int
deriving DecidableEq

/-- Initial values of the three refs (`false`, `0`, `[]`). -/
def guardInit : GuardSt := { inFlight := false, lastCallAt := 0, recent := [] }

/-- An event of a rate-guard history: an admission attempt at a timestamp,
or the resolution of the in-flight request (the `finally` clause / an
early-return path of `callOmniTech` clearing `inFlightRef`). -/
inductive GEvent where
  | attempt (t : Int)
  | resolve
deriving DecidableEq

/-- One step of the rate-guard history.  An admitted attempt performs the
updates of `callOmniTech` lines directly after the guard check: record the
time as `lastCallAt`, push it, set the in-flight flag. -/
def guardStep (s : GuardSt) : GEvent → GuardSt × Option Int
  | GEvent.resolve => ({ s with inFlight := false }, none)
  | GEvent.attempt t =>
      let g := canCallNow t s.inFlight s.lastCallAt s.recent
      if g.1 = GuardDecision.ok then
        ({ inFlight := true, lastCallAt := t, recent := g.2 ++ [t] }, some t)
      else ({ s with recent := g.2 }, none)

/-- Run a rate-guard history, collecting the admitted timestamps. -/
def runGuard (s : GuardSt) : List GEvent → GuardSt × List Int
  | [] => (s, [])
  | e :: es =>
      let p := guardStep s e
      let q := runGuard p.1 es
      (q.1, p.2.toList ++ q.2)

/-- The timestamps of the admission attempts of a history, in order. -/
def attemptTimes : List GEvent → List Int
  | [] => []
  | GEvent.attempt t :: es => t :: attemptTimes es
  | GEvent.resolve :: es => attemptTimes es

/-- Two admitted timestamps separated by at least the cooldown window. -/
def gapOK (x y : Int) : Prop := x + COOLDOWN_MS ≤ y

/-- Membership of a timestamp in the trailing window `(T - w, T]`. -/
def inWindow (T w a : Int) : Bool := decide (T - w < a ∧ a ≤ T)

/-- Invariant of the rate-guard history relating the state, the admitted
timestamps so far, and an upper bound `b` on all timestamps seen so far. -/
def GuardInv (b : Int) (s : GuardSt) (adm : List Int) : Prop :=
  (∀ a ∈ adm, a ≤ s.lastCallAt) ∧
  adm.Pairwise gapOK ∧
  (∀ a ∈ adm, b - 60000 < a → a ∈ s.recent) ∧
  (∀ T : Int, adm.countP (inWindow T 60000) ≤ MAX_CALLS_PER_MIN)

/-- Decides whether an invocation is a genuine success in repair-guide mode
whose result carries a `repair_steps` field (the one completion path that
appends no log entry). -/
def successRepairEarly (env : Env) (mode : String) : Bool :=
  env.apiKeyPresent && env.frame.isSome &&
    (match env.outcome with
     | FetchOutcome.parsed r => mode == "repair_guide" && r.repair_steps.isSome
     | _ => false)

/-- A populated classification: all four core fields present. -/
def nonEmptyResult (r : AnalysisResult) : Prop :=
  r.status ≠ none ∧ r.headline ≠ none ∧ r.reasoning ≠ none ∧ r.action_required ≠ none

/-- A fresh session state (all hooks at their `useState` initial values). -/
def baseState : AppState :=
  { analyzing := false, inFlight := false, lastCallAt := 0, recentCalls := [],
    systemState := "IDLE", logs := [], currentAnalysis := none, repairSteps := none,
    showRepairModal := false, demoStep := 0, toast := none, userContext := "",
    generatedReport := none, showReportModal := false, generatingReport := false }

/-- A session state whose safety state machine sits in `DANGER`, with typed
user context waiting in the text box. -/
def stateDanger : AppState :=
  { baseState with systemState := "DANGER", userContext := "x" }

/-- A session state whose safety state machine sits in `SAFE`. -/
def stateSafe : AppState :=
  { baseState with systemState := "SAFE" }

/-- A parsed inference response reporting a hazard and carrying no
`repair_steps` field. -/
def bareDangerResult : AnalysisResult :=
  { status := some "DANGER", headline := some "Exposed Wiring Found",
    reasoning := some "Live conductors are visible.",
    action_required := some "Cut power at the breaker first.",
    repair_steps := none }

/-- A parsed repair-guide response carrying repair steps. -/
def repairStepsResult : AnalysisResult :=
  { status := some "SAFE", headline := some "Repair Protocol Ready",
    reasoning := some "Safety confirmed.",
    action_required := some "Proceed carefully.",
    repair_steps := some [ "Step 1", "Step 2" ] }

/-- A live environment whose inference call parses to `bareDangerResult`. -/
def envLive : Env :=
  { apiKeyPresent := true, frame := some "img", outcome := FetchOutcome.parsed bareDangerResult,
    userDb := false }

/-- An environment whose inference call is rejected with HTTP 429. -/
def env429 : Env :=
  { apiKeyPresent := true, frame := some "img", outcome := FetchOutcome.http429 "quota",
    userDb := true }

/-- An environment whose inference call succeeds with `repairStepsResult`,
with persistence available. -/
def envRepairOk : Env :=
  { apiKeyPresent := true, frame := some "img",
    outcome := FetchOutcome.parsed repairStepsResult, userDb := true }

/-- An environment whose inference call succeeds with `demoSafe`, with
persistence available. -/
def envParsedSafe : Env :=
  { apiKeyPresent := true, frame := some "img", outcome := FetchOutcome.parsed demoSafe,
    userDb := true }

/-- An environment with no API key configured. -/
def envNoKey : Env :=
  { apiKeyPresent := false, frame := none, outcome := FetchOutcome.netThrow, userDb := true }

/-- A session state holding exactly one log entry. -/
def oneLogState : AppState :=
  { baseState with logs := [ { source := "SYSTEM", message := "Camera ready.", time := "09:59:00" } ] }

/-- A session state holding two identical log entries. -/
def twoLogState : AppState :=
  { baseState with logs :=
      [ { source := "SYSTEM", message := "Camera ready.", time := "09:59:00" },
        { source := "SYSTEM", message := "Camera ready.", time := "09:59:00" } ] }

theorem jsCeil_eq_ceilSeconds (a : Int) : jsCeilDiv1000 a = ceilSeconds a := by
  unfold jsCeilDiv1000 ceilSeconds
  omega

theorem canCallNow_not_inflight_of_false (t last : Int) (recent : List Int) :
    (canCallNow t false last recent).1 ≠ GuardDecision.rejectedInFlight := by
  unfold canCallNow
  by_cases h2 : t - last < COOLDOWN_MS
  · simp [h2]
  · by_cases h3 : MAX_CALLS_PER_MIN ≤ (recent.filter fun x => decide (t - 60000 < x)).length
    · simp [h2, h3]
    · simp [h2, h3]

/-- C6: the admission check evaluates in-flight lock, then cooldown, then the
sliding per-minute cap, in that order, the first failing rule determining the
rejection; the cooldown rejection carries the remaining wait rounded up to the
nearest second (`specFirstFailing` spells the spec wording, with the rounding
written as a negated floor). -/
theorem canCallNow_matches_spec_order (now : Int) (inFlight : Bool)
    (lastCallAt : Int) (recent : List Int) :
    (canCallNow now inFlight lastCallAt recent).1 =
      specFirstFailing now inFlight lastCallAt recent := by
  unfold canCallNow specFirstFailing
  by_cases h1 : inFlight
  · simp [h1]
  · by_cases h2 : now - lastCallAt < COOLDOWN_MS
    · simp [h1, h2, jsCeil_eq_ceilSeconds]
    · by_cases h3 : MAX_CALLS_PER_MIN ≤ (recent.filter fun x => decide (now - 60000 < x)).length
      · simp [h1, h2, h3]
      · simp [h1, h2, h3]

/-- C2: on every completion path of an admitted analysis call — success,
missing frame, quota fallback, non-success transport status, corrupt
response, or thrown exception — the in-flight flag (and the analyzing flag)
is cleared, so no later admission attempt can be rejected for the reason
that a request is in progress. -/
theorem inflight_cleared_on_completion (mode mc : String) (now : Int)
    (env : Env) (timeStr : String) (s : AppState)
    (h : (canCallNow now s.inFlight s.lastCallAt s.recentCalls).1 = GuardDecision.ok) :
    (callOmniTech mode mc now env timeStr s).1.inFlight = false ∧
    (callOmniTech mode mc now env timeStr s).1.analyzing = false ∧
    ∀ t2 last2 rec2,
      (canCallNow t2 (callOmniTech mode mc now env timeStr s).1.inFlight last2 rec2).1 ≠
        GuardDecision.rejectedInFlight := by
  have hmain : (callOmniTech mode mc now env timeStr s).1.inFlight = false ∧
      (callOmniTech mode mc now env timeStr s).1.analyzing = false := by
    rcases env with ⟨key, frame, outcome, udb⟩
    cases key <;> cases frame <;> cases outcome <;>
      simp [callOmniTech, h, handleAnalysisResult, DEMO_MODE]
  refine ⟨hmain.1, hmain.2, ?_⟩
  intro t2 last2 rec2
  rw [hmain.1]
  exact canCallNow_not_inflight_of_false t2 last2 rec2

/-- C2 witness: a concrete admitted call (quota outcome) ends with the
in-flight flag clear. -/
theorem inflight_cleared_on_completion_witness :
    (callOmniTech "safety_check" "" 100000 env429 "10:00:00" baseState).1.inFlight = false ∧
    (callOmniTech "safety_check" "" 100000 env429 "10:00:00" baseState).1.analyzing = false :=
  ⟨(inflight_cleared_on_completion "safety_check" "" 100000 env429 "10:00:00" baseState (by decide)).1,
   (inflight_cleared_on_completion "safety_check" "" 100000 env429 "10:00:00" baseState (by decide)).2.1⟩

/-- C5 counterexample: a repair-guide result that carries no `repair_steps`
field falls through to the normal result path and does change the safety
state (here from SAFE to DANGER). -/
theorem repair_guide_result_can_change_state :
    (handleAnalysisResult bareDangerResult "repair_guide" false false "10:00:01" stateSafe).1.systemState ≠
      stateSafe.systemState := by decide

/-- C5 amended: a repair-guide result that does carry a `repair_steps` field
leaves the whole state unchanged apart from the repair-steps surface (the
`repairSteps` field and its modal flag), and performs no external effect; in
particular `SafetyState` is unchanged. -/
theorem repair_guide_with_steps_preserves_state (r : AnalysisResult)
    (skipSave userDb : Bool) (timeStr : String) (s : AppState)
    (h : r.repair_steps ≠ none) :
    handleAnalysisResult r "repair_guide" skipSave userDb timeStr s =
      ({ s with repairSteps := r.repair_steps, showRepairModal := true }, []) := by
  unfold handleAnalysisResult
  simp [h]

/-- C5 amended witness: concrete repair-guide result with steps. -/
theorem repair_guide_with_steps_preserves_state_witness :
    handleAnalysisResult repairStepsResult "repair_guide" false true "10:00:01" stateSafe =
      ({ stateSafe with repairSteps := repairStepsResult.repair_steps, showRepairModal := true }, []) :=
  repair_guide_with_steps_preserves_state repairStepsResult false true "10:00:01" stateSafe (by decide)

/-- C4: a persistence write can only carry a result parsed from a genuine
successful inference response, in the same mode; fallback (synthetic)
results are never forwarded to the durable event store. -/
theorem persisted_results_are_genuine (mode mc : String) (now : Int)
    (env : Env) (timeStr : String) (s : AppState) (m : String)
    (r : AnalysisResult)
    (h : Event.persist m r ∈ (callOmniTech mode mc now env timeStr s).2) :
    env.outcome = FetchOutcome.parsed r ∧ m = mode ∧ env.apiKeyPresent = true := by
  rcases env with ⟨key, frame, outcome, udb⟩
  by_cases hg : (canCallNow now s.inFlight s.lastCallAt s.recentCalls).1 = GuardDecision.ok
  · cases key <;> cases frame <;> cases outcome <;>
      simp_all [callOmniTech, hg, handleAnalysisResult, DEMO_MODE] <;>
      split_ifs at h <;> simp_all
  · simp_all [callOmniTech, hg]

/-- C4 witness: a genuine parsed success with persistence available does
persist exactly the parsed result. -/
theorem persisted_results_are_genuine_witness :
    envParsedSafe.outcome = FetchOutcome.parsed demoSafe ∧
    "safety_check" = "safety_check" ∧ envParsedSafe.apiKeyPresent = true :=
  persisted_results_are_genuine "safety_check" "" 100000 envParsedSafe "10:00:00" baseState
    "safety_check" demoSafe (by decide)

/-- C10: with the inference API key absent, no admitted or rejected analysis
invocation issues a network request, captures a frame, or persists anything;
an admitted invocation logs the missing-key error and processes the rotating
demo result through the normal result path. -/
theorem missing_key_demo_fallback (mode mc : String) (now : Int) (env : Env)
    (timeStr : String) (s : AppState) (hkey : env.apiKeyPresent = false) :
    Event.fetchCall ∉ (callOmniTech mode mc now env timeStr s).2 ∧
    Event.captureEv ∉ (callOmniTech mode mc now env timeStr s).2 ∧
    (∀ m r, Event.persist m r ∉ (callOmniTech mode mc now env timeStr s).2) ∧
    ((canCallNow now s.inFlight s.lastCallAt s.recentCalls).1 = GuardDecision.ok →
      (((callOmniTech mode mc now env timeStr s).1.logs.map LogEntry.message).contains
          "Missing VITE_GEMINI_API_KEY. Using demo output.") = true ∧
      (mode ≠ "repair_guide" →
        (callOmniTech mode mc now env timeStr s).1.currentAnalysis =
          some (getDemoResult mode s.demoStep)) ∧
      (mode = "repair_guide" →
        (callOmniTech mode mc now env timeStr s).1.repairSteps =
          (getDemoResult mode s.demoStep).repair_steps)) := by
  by_cases hg : (canCallNow now s.inFlight s.lastCallAt s.recentCalls).1 = GuardDecision.ok
  · by_cases hm : mode = "repair_guide"
    · have hsteps : (getDemoResult mode s.demoStep).repair_steps ≠ none := by
        subst hm
        unfold getDemoResult
        simp
      simp_all [callOmniTech, hg, hkey, handleAnalysisResult, addLog, hsteps]
    · simp_all [callOmniTech, hg, hkey, handleAnalysisResult, addLog, hm]
  · simp_all [callOmniTech, hg, hkey]

/-- C10 witness: concrete missing-key invocation in safety-check mode. -/
theorem missing_key_demo_fallback_witness :
    Event.fetchCall ∉ (callOmniTech "safety_check" "" 100000 envNoKey "10:00:00" baseState).2 ∧
    (((callOmniTech "safety_check" "" 100000 envNoKey "10:00:00" baseState).1.logs.map LogEntry.message).contains
        "Missing VITE_GEMINI_API_KEY. Using demo output.") = true ∧
    (callOmniTech "safety_check" "" 100000 envNoKey "10:00:00" baseState).1.currentAnalysis =
      some (getDemoResult "safety_check" 0) :=
  ⟨(missing_key_demo_fallback "safety_check" "" 100000 envNoKey "10:00:00" baseState rfl).1,
   ((missing_key_demo_fallback "safety_check" "" 100000 envNoKey "10:00:00" baseState rfl).2.2.2 (by decide)).1,
   ((missing_key_demo_fallback "safety_check" "" 100000 envNoKey "10:00:00" baseState rfl).2.2.2 (by decide)).2.1
     (by decide)⟩

theorem getDemoResult_nonEmpty (mode : String) (step : Nat) :
    nonEmptyResult (getDemoResult mode step) := by
  have h3 : step % 3 = 0 ∨ step % 3 = 1 ∨ step % 3 = 2 := by omega
  unfold nonEmptyResult getDemoResult
  rcases h3 with h | h | h <;>
    simp [demoAt, h, demoDanger, demoUncertain, demoSafe] <;>
    split_ifs <;> simp_all [demoDanger, demoUncertain, demoSafe]

/-- C3: a quota (HTTP 429) answer from the inference service makes the
admitted call substitute the rotating synthetic demo result — a populated
`AnalysisResult` processed through the normal result path (state machine or
repair surface, with the rotation counter advanced) — and the call ends with
a success toast, not a user-facing error; nothing is persisted. -/
theorem quota_fallback_substitutes_demo (mode mc : String) (now : Int)
    (env : Env) (timeStr : String) (s : AppState) (e : String)
    (hg : (canCallNow now s.inFlight s.lastCallAt s.recentCalls).1 = GuardDecision.ok)
    (hkey : env.apiKeyPresent = true)
    (hf : env.frame.isSome = true)
    (hout : env.outcome = FetchOutcome.http429 e) :
    nonEmptyResult (getDemoResult mode s.demoStep) ∧
    (callOmniTech mode mc now env timeStr s).1.toast =
      some { message := "Quota hit — demo fallback enabled.", ty := "success" } ∧
    (callOmniTech mode mc now env timeStr s).1.demoStep = s.demoStep + 1 ∧
    (mode ≠ "repair_guide" →
      (callOmniTech mode mc now env timeStr s).1.currentAnalysis =
        some (getDemoResult mode s.demoStep) ∧
      (callOmniTech mode mc now env timeStr s).1.systemState =
        jsOrString (getDemoResult mode s.demoStep).status "UNCERTAIN") ∧
    (mode = "repair_guide" →
      (callOmniTech mode mc now env timeStr s).1.repairSteps =
        (getDemoResult mode s.demoStep).repair_steps) ∧
    (∀ m r, Event.persist m r ∉ (callOmniTech mode mc now env timeStr s).2) := by
  refine ⟨getDemoResult_nonEmpty mode s.demoStep, ?_⟩
  rcases env with ⟨key, frame, outcome, udb⟩
  subst hout
  rcases frame with _ | f
  · simp at hf
  · simp only at hkey
    subst hkey
    by_cases hm : mode = "repair_guide"
    · have hsteps : (getDemoResult mode s.demoStep).repair_steps ≠ none := by
        subst hm
        unfold getDemoResult
        simp
      simp_all [callOmniTech, hg, handleAnalysisResult, addLog, DEMO_MODE, hsteps]
    · simp_all [callOmniTech, hg, handleAnalysisResult, addLog, DEMO_MODE, hm]

/-- C3 witness: concrete quota-hit call in safety-check mode. -/
theorem quota_fallback_substitutes_demo_witness :
    nonEmptyResult (getDemoResult "safety_check" 0) ∧
    (callOmniTech "safety_check" "" 100000 env429 "10:00:00" baseState).1.toast =
      some { message := "Quota hit — demo fallback enabled.", ty := "success" } ∧
    (callOmniTech "safety_check" "" 100000 env429 "10:00:00" baseState).1.demoStep = 1 :=
  ⟨(quota_fallback_substitutes_demo "safety_check" "" 100000 env429 "10:00:00" baseState
      "quota" (by decide) rfl rfl rfl).1,
   (quota_fallback_substitutes_demo "safety_check" "" 100000 env429 "10:00:00" baseState
      "quota" (by decide) rfl rfl rfl).2.1,
   (quota_fallback_substitutes_demo "safety_check" "" 100000 env429 "10:00:00" baseState
      "quota" (by decide) rfl rfl rfl).2.2.1⟩

/-- C1 counterexample: with the safety state at DANGER, a diagnosis request
submitted through the text box (`submitTextDiagnosis`) is admitted by
`callOmniTech` and reaches the inference client — the orchestrator boundary
performs no safety-state check. -/
theorem diagnosis_reaches_client_in_danger :
    stateDanger.systemState = "DANGER" ∧
    Event.fetchCall ∈ (submitTextDiagnosis 100000 envLive "10:00:00" stateDanger).2 := by
  exact ⟨rfl, by decide⟩

/-- C1 amended: mode gating lives in the UI, not in the orchestrator.  The
DIAGNOSE button is disabled whenever the state is DANGER or UNCERTAIN, and
the repair-guide button is rendered only when the latest result's status is
SAFE; but `callOmniTech` itself never consults the safety state, so a
diagnosis submitted through the text input while the state is DANGER or
UNCERTAIN is admitted and invokes the inference client. -/
theorem mode_gating_ui_only (isStream analyzing : Bool) (st : String)
    (h1 : st = "DANGER" ∨ st = "UNCERTAIN")
    (now : Int) (env : Env) (timeStr : String) (s : AppState)
    (h2 : ¬ jsTrim s.userContext = "")
    (h3 : env.apiKeyPresent = true)
    (h4 : env.frame.isSome = true)
    (h5 : (canCallNow now s.inFlight s.lastCallAt s.recentCalls).1 = GuardDecision.ok) :
    diagnoseButtonDisabled isStream analyzing st = true ∧
    Event.fetchCall ∈ (submitTextDiagnosis now env timeStr s).2 ∧
    (∀ ca, repairButtonShown ca = true → ∃ r, ca = some r ∧ r.status = some "SAFE") := by
  refine ⟨?_, ?_, ?_⟩
  · rcases h1 with h | h <;> subst h <;> simp [diagnoseButtonDisabled]
  · rcases env with ⟨key, frame, outcome, udb⟩
    simp only at h3
    subst h3
    rcases frame with _ | f
    · simp at h4
    · cases outcome <;>
        simp_all [submitTextDiagnosis, callOmniTech, h2, h5, handleAnalysisResult, DEMO_MODE]
  · intro ca hca
    cases ca with
    | none => simp [repairButtonShown] at hca
    | some r =>
        refine ⟨r, rfl, ?_⟩
        simpa [repairButtonShown, beq_iff_eq] using hca

/-- C1 amended witness: concrete DANGER-state text diagnosis. -/
theorem mode_gating_ui_only_witness :
    diagnoseButtonDisabled true false "DANGER" = true ∧
    Event.fetchCall ∈ (submitTextDiagnosis 100000 envLive "10:00:00" stateDanger).2 :=
  ⟨(mode_gating_ui_only true false "DANGER" (Or.inl rfl) 100000 envLive "10:00:00" stateDanger
      (by decide) rfl rfl (by decide)).1,
   (mode_gating_ui_only true false "DANGER" (Or.inl rfl) 100000 envLive "10:00:00" stateDanger
      (by decide) rfl rfl (by decide)).2.1⟩

/-- C8 counterexample: a successful repair-guide call whose result carries
repair steps appends no log entry at all, so an admitted call does not
always append exactly one. -/
theorem admitted_call_can_append_no_log :
    (canCallNow 100000 stateSafe.inFlight stateSafe.lastCallAt stateSafe.recentCalls).1 =
      GuardDecision.ok ∧
    (callOmniTech "repair_guide" "" 100000 envRepairOk "10:00:02" stateSafe).1.logs.length ≠
      stateSafe.logs.length + 1 := by
  exact ⟨by decide, by decide⟩

/-- C8 amended: an admitted analysis call appends between one and three log
entries on every completion path except a genuine repair-guide success whose
result carries a `repair_steps` field, which appends none; the count is zero
exactly on that path. -/
theorem admitted_call_log_entry_counts (mode mc : String) (now : Int)
    (env : Env) (timeStr : String) (s : AppState)
    (hg : (canCallNow now s.inFlight s.lastCallAt s.recentCalls).1 = GuardDecision.ok) :
    ((callOmniTech mode mc now env timeStr s).1.logs.length = s.logs.length ↔
      successRepairEarly env mode = true) ∧
    s.logs.length ≤ (callOmniTech mode mc now env timeStr s).1.logs.length ∧
    (callOmniTech mode mc now env timeStr s).1.logs.length ≤ s.logs.length + 3 := by
  rcases env with ⟨key, frame, outcome, udb⟩
  cases key <;> cases frame <;> cases outcome <;>
    simp_all [callOmniTech, hg, successRepairEarly, handleAnalysisResult, addLog, DEMO_MODE] <;>
    split_ifs <;> simp_all [Option.isSome_iff_ne_none] <;> omega

/-- C8 amended witness: a concrete admitted safety-check success appends one
entry (count differs from zero, matching `successRepairEarly = false`). -/
theorem admitted_call_log_entry_counts_witness :
    ((callOmniTech "safety_check" "" 100000 envParsedSafe "10:00:00" baseState).1.logs.length =
        baseState.logs.length ↔ successRepairEarly envParsedSafe "safety_check" = true) ∧
    baseState.logs.length ≤
      (callOmniTech "safety_check" "" 100000 envParsedSafe "10:00:00" baseState).1.logs.length :=
  ⟨(admitted_call_log_entry_counts "safety_check" "" 100000 envParsedSafe "10:00:00" baseState
      (by decide)).1,
   (admitted_call_log_entry_counts "safety_check" "" 100000 envParsedSafe "10:00:00" baseState
      (by decide)).2.1⟩

theorem string_append_ne_empty_left (a b : String) (h : a ≠ "") : a ++ b ≠ "" := by
  intro hab
  apply h
  have hlen := congrArg String.length hab
  rw [String.length_append, String.length_empty] at hlen
  have ha : a.length = 0 := by omega
  cases a with
  | mk data =>
      cases data with
      | nil => rfl
      | cons c cs => simp [String.length] at ha

theorem intercalate_go_ne_empty (sep : String) : ∀ (l : List String) (acc : String),
    acc ≠ "" → String.intercalate.go acc sep l ≠ "" := by
  intro l
  induction l with
  | nil => intro acc h; simpa [String.intercalate.go] using h
  | cons a as ih =>
      intro acc h
      rw [String.intercalate.go]
      exact ih (acc ++ sep ++ a) (string_append_ne_empty_left _ _ (string_append_ne_empty_left _ _ h))

theorem localReportLines_eq_cons (nowStr : String) (logs : List LogEntry) :
    localReportLines nowStr logs =
      "FIELD INCIDENT REPORT" :: ("--------------------" :: ("Generated: " ++ nowStr) :: "" ::
        "SESSION LOGS:" :: ((logs.take 30).reverse.map formatLogLine ++ reportFooterLines)) := rfl

theorem localReport_doc_ne_empty (nowStr : String) (logs : List LogEntry) :
    String.intercalate "\n" (localReportLines nowStr logs) ≠ "" := by
  rw [localReportLines_eq_cons, String.intercalate]
  exact intercalate_go_ne_empty _ _ _ (by decide)

/-- C9 counterexample: invoking report generation with exactly one log entry
(fewer than 2) is not a no-op — the local report is generated and the report
modal opened. -/
theorem report_with_one_entry_not_noop :
    oneLogState.logs.length = 1 ∧
    oneLogState.showReportModal = false ∧
    (generateFieldReport envLive ReportOutcome.netThrow "2026-02-03" "10:00:03" oneLogState).1.showReportModal =
      true := by
  exact ⟨rfl, rfl, by decide⟩

/-- C9 amended: report generation is a no-op only with zero log entries;
with one or more entries the local-formatting path (always taken, since demo
mode is on) issues no network call and produces a non-empty document whose
lines list the most recent (up to 30) entries in chronological order between
the fixed header and summary; the UI separately disables the report button
below 2 entries. -/
theorem report_generation_behavior (env : Env) (ro : ReportOutcome)
    (nowStr timeStr : String) (s : AppState) :
    generateFieldReport env ro nowStr timeStr s =
      (if s.logs.length = 0 then (s, [])
       else
        (addLog "SYSTEM" "Local report generated (demo / no-quota mode)." "info" timeStr
           { s with generatedReport := some (String.intercalate "\n" (localReportLines nowStr s.logs)),
                    showReportModal := true }, [])) ∧
    localReportLines nowStr s.logs =
      reportHeaderLines nowStr ++ (s.logs.take 30).reverse.map formatLogLine ++ reportFooterLines ∧
    String.intercalate "\n" (localReportLines nowStr s.logs) ≠ "" ∧
    (reportButtonDisabled s.logs.length s.generatingReport = true ↔
      s.logs.length < 2 ∨ s.generatingReport = true) := by
  refine ⟨?_, rfl, localReport_doc_ne_empty nowStr s.logs, ?_⟩
  · by_cases h0 : s.logs.length = 0
    · simp [generateFieldReport, h0]
    · simp [generateFieldReport, h0, DEMO_MODE]
  · simp [reportButtonDisabled]

theorem cooldown_pos : (0 : Int) < COOLDOWN_MS := by norm_num [COOLDOWN_MS]

theorem pairwise_gapOK_nodup {l : List Int} (hp : l.Pairwise gapOK) : l.Nodup :=
  hp.imp fun {x y} hxy => by
    have := cooldown_pos
    unfold gapOK at hxy
    omega

theorem countP_window_le_one {l : List Int} (hp : l.Pairwise gapOK) (T : Int) :
    l.countP (inWindow T COOLDOWN_MS) ≤ 1 := by
  rw [List.countP_eq_length_filter]
  rcases hfil : l.filter (inWindow T COOLDOWN_MS) with _ | ⟨x, _ | ⟨y, rest⟩⟩
  · simp
  · simp
  · exfalso
    have hpf := hp.filter (inWindow T COOLDOWN_MS)
    rw [hfil] at hpf
    have hxy : gapOK x y := (List.pairwise_cons.mp hpf).1 y (by simp)
    have hx : x ∈ l.filter (inWindow T COOLDOWN_MS) := by rw [hfil]; simp
    have hy : y ∈ l.filter (inWindow T COOLDOWN_MS) := by rw [hfil]; simp
    have hxw := List.of_mem_filter hx
    have hyw := List.of_mem_filter hy
    rw [inWindow, decide_eq_true_eq] at hxw hyw
    unfold gapOK at hxy
    omega

theorem runGuard_inv (evs : List GEvent) :
    ∀ (b : Int) (s : GuardSt) (adm : List Int),
      GuardInv b s adm →
      List.Chain (fun x y : Int => x < y) b (attemptTimes evs) →
      ∃ c, GuardInv c (runGuard s evs).1 (adm ++ (runGuard s evs).2) := by
  induction evs with
  | nil =>
      intro b s adm h _
      exact ⟨b, by simpa [runGuard] using h⟩
  | cons e es ih =>
      intro b s adm h hc
      obtain ⟨sf, sl, sr⟩ := s
      cases e with
      | resolve =>
          have h2 : GuardInv b ⟨false, sl, sr⟩ adm := h
          obtain ⟨c, hcInv⟩ := ih b _ adm h2 hc
          exact ⟨c, by simpa [runGuard, guardStep] using hcInv⟩
      | attempt t =>
          have hc' : b < t ∧ List.Chain (fun x y : Int => x < y) t (attemptTimes es) := by
            simpa [attemptTimes, List.chain_cons] using hc
          obtain ⟨hbt, hc2⟩ := hc'
          obtain ⟨h1, hp, h3, h4⟩ := h
          by_cases hF : sf = true
          · subst hF
            have hstep : guardStep ⟨true, sl, sr⟩ (GEvent.attempt t) = (⟨true, sl, sr⟩, none) := by
              simp [guardStep, canCallNow]
            have h2 : GuardInv t ⟨true, sl, sr⟩ adm :=
              ⟨h1, hp, fun a ha hw => h3 a ha (by omega), h4⟩
            obtain ⟨c, hcInv⟩ := ih t _ adm h2 hc2
            exact ⟨c, by simpa [runGuard, hstep] using hcInv⟩
          · have hf0 : sf = false := by
              cases sf
              · rfl
              · exact absurd rfl hF
            subst hf0
            by_cases hC : t - sl < COOLDOWN_MS
            · have hstep : guardStep ⟨false, sl, sr⟩ (GEvent.attempt t) = (⟨false, sl, sr⟩, none) := by
                simp [guardStep, canCallNow, hC]
              have h2 : GuardInv t ⟨false, sl, sr⟩ adm :=
                ⟨h1, hp, fun a ha hw => h3 a ha (by omega), h4⟩
              obtain ⟨c, hcInv⟩ := ih t _ adm h2 hc2
              exact ⟨c, by simpa [runGuard, hstep] using hcInv⟩
            · by_cases hR : MAX_CALLS_PER_MIN ≤
                  (sr.filter fun x => decide (t - 60000 < x)).length
              · have hstep : guardStep ⟨false, sl, sr⟩ (GEvent.attempt t) =
                    (⟨false, sl, sr.filter fun x => decide (t - 60000 < x)⟩, none) := by
                  simp [guardStep, canCallNow, hC, hR]
                have h3' : ∀ a ∈ adm, t - 60000 < a →
                    a ∈ sr.filter fun x => decide (t - 60000 < x) := by
                  intro a ha hw
                  rw [List.mem_filter]
                  exact ⟨h3 a ha (by omega), by simpa using hw⟩
                have h2 : GuardInv t ⟨false, sl, sr.filter fun x => decide (t - 60000 < x)⟩ adm :=
                  ⟨h1, hp, h3', h4⟩
                obtain ⟨c, hcInv⟩ := ih t _ adm h2 hc2
                exact ⟨c, by simpa [runGuard, hstep] using hcInv⟩
              · have hstep : guardStep ⟨false, sl, sr⟩ (GEvent.attempt t) =
                    (⟨true, t, (sr.filter fun x => decide (t - 60000 < x)) ++ [t]⟩, some t) := by
                  simp [guardStep, canCallNow, hC, hR]
                have hlast : sl + COOLDOWN_MS ≤ t := by omega
                have h1' : ∀ a ∈ adm ++ [t], a ≤ t := by
                  intro a ha
                  rcases List.mem_append.mp ha with ha | ha
                  · have hla := h1 a ha
                    have := cooldown_pos
                    simp only at hla
                    omega
                  · simp at ha
                    omega
                have hp' : (adm ++ [t]).Pairwise gapOK := by
                  rw [List.pairwise_append]
                  refine ⟨hp, by simp, ?_⟩
                  intro a ha y hy
                  simp at hy
                  subst hy
                  have hla := h1 a ha
                  simp only at hla
                  unfold gapOK
                  omega
                have h3' : ∀ a ∈ adm ++ [t], t - 60000 < a →
                    a ∈ (sr.filter fun x => decide (t - 60000 < x)) ++ [t] := by
                  intro a ha hw
                  rcases List.mem_append.mp ha with ha | ha
                  · apply List.mem_append.mpr
                    left
                    rw [List.mem_filter]
                    exact ⟨h3 a ha (by omega), by simpa using hw⟩
                  · simp at ha
                    subst ha
                    simp
                have h4' : ∀ T : Int, (adm ++ [t]).countP (inWindow T 60000) ≤ MAX_CALLS_PER_MIN := by
                  intro T
                  rw [List.countP_append]
                  by_cases hT : inWindow T 60000 t = true
                  · have hTw : T - 60000 < t ∧ t ≤ T := by
                      rw [inWindow, decide_eq_true_eq] at hT
                      exact hT
                    have hsub : adm.filter (inWindow T 60000) ⊆
                        sr.filter fun x => decide (t - 60000 < x) := by
                      intro x hx
                      rw [List.mem_filter] at hx
                      obtain ⟨hxa, hxp⟩ := hx
                      rw [inWindow, decide_eq_true_eq] at hxp
                      rw [List.mem_filter]
                      refine ⟨h3 x hxa (by omega), ?_⟩
                      rw [decide_eq_true_eq]
                      omega
                    have hnd : (adm.filter (inWindow T 60000)).Nodup :=
                      (pairwise_gapOK_nodup hp).filter _
                    have hlen := (hnd.subperm hsub).length_le
                    have hcnt : adm.countP (inWindow T 60000) + 1 ≤ MAX_CALLS_PER_MIN := by
                      rw [List.countP_eq_length_filter]
                      unfold MAX_CALLS_PER_MIN at hR ⊢
                      omega
                    simpa [hT] using hcnt
                  · have h0 : List.countP (inWindow T 60000) [t] = 0 := by
                      simp [List.countP_cons, hT]
                    rw [h0]
                    simpa using h4 T
                have h2 : GuardInv t ⟨true, t, (sr.filter fun x => decide (t - 60000 < x)) ++ [t]⟩
                    (adm ++ [t]) := ⟨h1', hp', h3', h4'⟩
                obtain ⟨c, hcInv⟩ := ih t _ (adm ++ [t]) h2 hc2
                refine ⟨c, ?_⟩
                have hshape : runGuard (⟨false, sl, sr⟩ : GuardSt) (GEvent.attempt t :: es) =
                    ((runGuard ⟨true, t, (sr.filter fun x => decide (t - 60000 < x)) ++ [t]⟩ es).1,
                     t :: (runGuard ⟨true, t, (sr.filter fun x => decide (t - 60000 < x)) ++ [t]⟩ es).2) := by
                  simp [runGuard, hstep]
                rw [hshape]
                simpa using hcInv

/-- C7: over any rate-guard history whose admission attempts carry strictly
increasing timestamps, starting from the initial refs, every two admitted
timestamps are at least `COOLDOWN_MS` apart (so any trailing window of width
`COOLDOWN_MS` admits at most one), and any trailing 60-second window admits
at most `MAX_CALLS_PER_MIN`. -/
theorem rate_guard_admission_bounds (evs : List GEvent)
    (h : List.Chain' (fun x y : Int => x < y) (attemptTimes evs)) :
    (runGuard guardInit evs).2.Pairwise gapOK ∧
    (∀ T : Int, (runGuard guardInit evs).2.countP (inWindow T COOLDOWN_MS) ≤ 1) ∧
    (∀ T : Int, (runGuard guardInit evs).2.countP (inWindow T 60000) ≤ MAX_CALLS_PER_MIN) := by
  have hbase : ∀ b : Int, GuardInv b guardInit [] := by
    intro b
    refine ⟨by simp, by simp, by simp, ?_⟩
    intro T
    simp [MAX_CALLS_PER_MIN]
  have hinv : ∃ c, GuardInv c (runGuard guardInit evs).1 (runGuard guardInit evs).2 := by
    rcases hat : attemptTimes evs with _ | ⟨t, ts⟩
    · have hchain : List.Chain (fun x y : Int => x < y) 0 (attemptTimes evs) := by
        rw [hat]
        exact List.Chain.nil
      obtain ⟨c, hcInv⟩ := runGuard_inv evs 0 guardInit [] (hbase 0) hchain
      exact ⟨c, by simpa using hcInv⟩
    · have hchain : List.Chain (fun x y : Int => x < y) (t - 1) (attemptTimes evs) := by
        rw [hat]
        rw [List.chain_cons]
        refine ⟨by omega, ?_⟩
        rw [hat] at h
        exact h
      obtain ⟨c, hcInv⟩ := runGuard_inv evs (t - 1) guardInit [] (hbase (t - 1)) hchain
      exact ⟨c, by simpa using hcInv⟩
  obtain ⟨c, h1, hp, h3, h4⟩ := hinv
  exact ⟨hp, fun T => countP_window_le_one hp T, h4⟩

/-- C7 witness: two attempts 10 seconds apart with a resolve in between. -/
theorem rate_guard_admission_bounds_witness :
    (runGuard guardInit [GEvent.attempt 10000, GEvent.resolve, GEvent.attempt 20000]).2.Pairwise gapOK ∧
    (runGuard guardInit [GEvent.attempt 10000, GEvent.resolve, GEvent.attempt 20000]).2.countP
      (inWindow 20000 60000) ≤ MAX_CALLS_PER_MIN :=
  ⟨(rate_guard_admission_bounds [GEvent.attempt 10000, GEvent.resolve, GEvent.attempt 20000]
      (by norm_num [attemptTimes, List.chain'_cons, List.chain'_singleton])).1,
   (rate_guard_admission_bounds [GEvent.attempt 10000, GEvent.resolve, GEvent.attempt 20000]
      (by norm_num [attemptTimes, List.chain'_cons, List.chain'_singleton])).2.2 20000⟩

/-- Bridge between `callOmniTech` and the rate-guard trace model: one
invocation affects the guard fields exactly as `guardStep` does on an
admission attempt — on admission it records `now`, pushes it, and (because
every completion path clears the flag before returning) leaves `inFlight`
resolved; on rejection it leaves the fields untouched apart from the pruning
performed inside `canCallNow`. -/
theorem callOmniTech_guard_effect (mode mc : String) (now : Int) (env : Env)
    (timeStr : String) (s : AppState) :
    ((callOmniTech mode mc now env timeStr s).1.inFlight,
     (callOmniTech mode mc now env timeStr s).1.lastCallAt,
     (callOmniTech mode mc now env timeStr s).1.recentCalls) =
      (if (canCallNow now s.inFlight s.lastCallAt s.recentCalls).1 = GuardDecision.ok then
        (false, now, (canCallNow now s.inFlight s.lastCallAt s.recentCalls).2 ++ [now])
      else
        (s.inFlight, s.lastCallAt, (canCallNow now s.inFlight s.lastCallAt s.recentCalls).2)) := by
  by_cases hg : (canCallNow now s.inFlight s.lastCallAt s.recentCalls).1 = GuardDecision.ok
  · rcases env with ⟨key, frame, outcome, udb⟩
    cases key <;> cases frame <;> cases outcome <;>
      simp [callOmniTech, hg, handleAnalysisResult, addLog, DEMO_MODE] <;>
      split_ifs <;> simp_all
  · simp [callOmniTech, hg]

end OmniTech
